import Mathlib

/-
Formal model of the loan-default risk scorer.

The repository contains two Python files, loan_predictor.py and streamlit_app.py,
each carrying its own copy of a fixed logistic-regression scorer: a 14-entry
coefficient table, an intercept, a decision threshold, and a function
predict_loan_default that maps a feature dictionary to a probability, a binary
decision, a risk-tier label and a recommendation string.

Embedding choices:
- Numeric values are embedded as exact rationals (the score layer) and exact
  reals (the probability layer); floating-point rounding is idealized as exact
  arithmetic.
- Python dictionaries are embedded as association lists; dictGet models
  dict.get(key, 0) (first matching key wins; all dictionaries appearing in the
  repository have distinct keys).
- CPython's math.exp raises OverflowError when the true result exceeds the
  double range, i.e. for arguments above ln(DBL_MAX) = 709.78...; pyExp models
  this documented fault as an Except error.  Underflow of exp to zero for very
  negative arguments is idealized as the exact (positive) real value.
-/

/-- Feature dictionaries are association lists from feature name to a numeric
value, modelling the Python dicts fed to predict_loan_default. -/
abbrev FeatureDict := List (String × ℚ)

/-- Models the Python expression customer_data.get(feature, 0): the value bound
to the first occurrence of the key, or 0 when the key is absent. -/
def dictGet : FeatureDict → String → ℚ
  | [], _ => 0
  | (k, v) :: rest, key => if key = k then v else dictGet rest key

/-- The fault CPython's math.exp can raise on the inputs of this program. -/
inductive MathError where
  | overflow
deriving DecidableEq

/-- Largest double-precision exponent argument: ln(DBL_MAX).  CPython's
math.exp raises OverflowError for arguments beyond this bound. -/
def EXP_OVERFLOW_BOUND : ℚ := 709.782712893384

/-- Models CPython math.exp: raises OverflowError (modelled as Except.error)
when the argument exceeds ln(DBL_MAX); otherwise the exact real exponential
(rounding and underflow idealized as exact). -/
noncomputable def pyExp (x : ℝ) : Except MathError ℝ :=
  if ((EXP_OVERFLOW_BOUND : ℚ) : ℝ) < x then Except.error MathError.overflow
  else Except.ok (Real.exp x)

/-- The dictionary returned by predict_loan_default in loan_predictor.py, with
its four keys as fields. -/
structure PredictionResult where
  probability : ℝ
  predicted_default : ℕ
  risk_level : String
  recommendation : String

namespace LoanPredictor

/-- Coefficient table of loan_predictor.py (lines 12-27), in source order. -/
def COEFFICIENTS : List (String × ℚ) :=
  [("age", 0.0393),
   ("campaign", -0.2032),
   ("pdays", -0.2790),
   ("previous", 0.1427),
   ("contact_cellular", 0.4383),
   ("month_mar", 0.1977),
   ("month_oct", 0.1847),
   ("default_no", 0.1843),
   ("job_management", -0.0175),
   ("job_technician", -0.0091),
   ("marital_married", -0.0181),
   ("education_university.degree", 0.0540),
   ("housing_no", 0.0093),
   ("loan_no", 0.0198)]

/-- Intercept constant of loan_predictor.py (line 29). -/
def INTERCEPT : ℚ := -0.3273

/-- Decision threshold of loan_predictor.py (line 30). -/
def OPTIMAL_THRESHOLD : ℝ := 0.6

/-- The linear-combination loop of predict_loan_default (lines 105-109):
score starts at the intercept and accumulates coefficient times looked-up
value over the coefficient table in order. -/
def linearScore (customer_data : FeatureDict) : ℚ :=
  COEFFICIENTS.foldl (fun score p => score + p.2 * dictGet customer_data p.1) INTERCEPT

/-- The binary decision of predict_loan_default (line 115): 1 when the
probability strictly exceeds the optimal threshold, else 0. -/
noncomputable def decisionOf (probability : ℝ) : ℕ :=
  if probability > OPTIMAL_THRESHOLD then 1 else 0

/-- The risk-level ladder of predict_loan_default (lines 118-125). -/
noncomputable def riskLevelOf (probability : ℝ) : String :=
  if probability < 0.2 then "Low Risk"
  else if probability < 0.5 then "Medium Risk"
  else if probability < 0.8 then "High Risk"
  else "Very High Risk"

/-- The recommendation of predict_loan_default (line 128). -/
def recommendationOf (prediction : ℕ) : String :=
  if prediction = 1 then "REVIEW/REJECT" else "APPROVE"

/-- The scorer predict_loan_default of loan_predictor.py (lines 93-135):
linear score, sigmoid via math.exp, threshold decision, risk ladder,
recommendation.  The math.exp overflow fault propagates as an error. -/
noncomputable def predict_loan_default (customer_data : FeatureDict) :
    Except MathError PredictionResult :=
  let score := linearScore customer_data
  match pyExp (-(score : ℝ)) with
  | Except.error e => Except.error e
  | Except.ok ex =>
    let probability : ℝ := 1 / (1 + ex)
    let prediction := decisionOf probability
    Except.ok
      { probability := probability
        predicted_default := prediction
        risk_level := riskLevelOf probability
        recommendation := recommendationOf prediction }

/-- Abbreviation for the probability predict_loan_default computes on the
non-overflow path: the logistic sigmoid of the linear score. -/
noncomputable def probOf (customer_data : FeatureDict) : ℝ :=
  1 / (1 + Real.exp (-((linearScore customer_data : ℚ) : ℝ)))

end LoanPredictor

namespace StreamlitApp

/-- Coefficient table of streamlit_app.py (lines 16-31), in source order. -/
def COEFFICIENTS : List (String × ℚ) :=
  [("age", 0.0393),
   ("campaign", -0.2032),
   ("pdays", -0.2790),
   ("previous", 0.1427),
   ("contact_cellular", 0.4383),
   ("month_mar", 0.1977),
   ("month_oct", 0.1847),
   ("default_no", 0.1843),
   ("job_management", -0.0175),
   ("job_technician", -0.0091),
   ("marital_married", -0.0181),
   ("education_university.degree", 0.0540),
   ("housing_no", 0.0093),
   ("loan_no", 0.0198)]

/-- Intercept constant of streamlit_app.py (line 33). -/
def INTERCEPT : ℚ := -0.3273

/-- Decision threshold of streamlit_app.py (line 34). -/
def OPTIMAL_THRESHOLD : ℝ := 0.6

/-- The score loop of streamlit_app.py's predict_loan_default (lines 40-42). -/
def linearScore (features : FeatureDict) : ℚ :=
  COEFFICIENTS.foldl (fun score p => score + p.2 * dictGet features p.1) INTERCEPT

/-- The scorer predict_loan_default of streamlit_app.py (lines 39-60).  It
returns the tuple (probability, risk_level, recommendation, color); the
risk-level/color pair is set by one if-ladder, exactly as in the source.
Note the recommendation string here is spelled REVIEW / REJECT with spaces. -/
noncomputable def predict_loan_default (features : FeatureDict) :
    Except MathError (ℝ × String × String × String) :=
  let score := linearScore features
  match pyExp (-(score : ℝ)) with
  | Except.error e => Except.error e
  | Except.ok ex =>
    let probability : ℝ := 1 / (1 + ex)
    let prediction : ℕ := if probability > OPTIMAL_THRESHOLD then 1 else 0
    let rc : String × String :=
      if probability < 0.2 then ("Low Risk", "green")
      else if probability < 0.5 then ("Medium Risk", "gold")
      else if probability < 0.8 then ("High Risk", "orange")
      else ("Very High Risk", "red")
    let recommendation := if prediction = 1 then "REVIEW / REJECT" else "APPROVE"
    Except.ok (probability, rc.1, recommendation, rc.2)

end StreamlitApp

/-- The hardcoded sample customer of loan_predictor.py's demo (lines 255-267),
the dict under the name John. -/
def johnData : FeatureDict :=
  [("age", 45),
   ("campaign", 1),
   ("contact_cellular", 1),
   ("job_management", 1),
   ("marital_married", 1),
   ("education_university.degree", 1),
   ("default_no", 1),
   ("housing_no", 1),
   ("loan_no", 1)]

/-- The output contract of the spec: probability strictly between 0 and 1,
decision 0 or 1, risk level one of the four ladder labels, recommendation
either APPROVE or REVIEW/REJECT. -/
def ValidResult (r : PredictionResult) : Prop :=
  0 < r.probability ∧ r.probability < 1 ∧
  (r.predicted_default = 0 ∨ r.predicted_default = 1) ∧
  (r.risk_level = "Low Risk" ∨ r.risk_level = "Medium Risk" ∨
    r.risk_level = "High Risk" ∨ r.risk_level = "Very High Risk") ∧
  (r.recommendation = "APPROVE" ∨ r.recommendation = "REVIEW/REJECT")

namespace LoanPredictor

/-- The 14 feature names of the coefficient table are pairwise distinct. -/
lemma coeff_keys_nodup : (COEFFICIENTS.map Prod.fst).Nodup := by decide

/-- A score fold over features that all evaluate to zero adds nothing. -/
lemma foldl_score_zero (g : String → ℚ) :
    ∀ (L : List (String × ℚ)) (s : ℚ), (∀ p ∈ L, g p.1 = 0) →
      L.foldl (fun a p => a + p.2 * g p.1) s = s := by
  intro L
  induction L with
  | nil => intro s _; rfl
  | cons p t ih =>
    intro s h
    have hp : g p.1 = 0 := h p (List.mem_cons_self p t)
    simp only [List.foldl_cons, hp, mul_zero, add_zero]
    exact ih s (fun q hq => h q (List.mem_cons_of_mem p hq))

/-- The score fold only reads the valuation at keys of the table. -/
lemma foldl_score_congr (g1 g2 : String → ℚ) :
    ∀ (L : List (String × ℚ)) (s : ℚ), (∀ p ∈ L, g1 p.1 = g2 p.1) →
      L.foldl (fun a p => a + p.2 * g1 p.1) s = L.foldl (fun a p => a + p.2 * g2 p.1) s := by
  intro L
  induction L with
  | nil => intro s _; rfl
  | cons p t ih =>
    intro s h
    have hp : g1 p.1 = g2 p.1 := h p (List.mem_cons_self p t)
    simp only [List.foldl_cons, hp]
    exact ih _ (fun q hq => h q (List.mem_cons_of_mem p hq))

/-- Difference of two score folds: the initial accumulators subtract and each
table entry contributes its coefficient times the difference of valuations. -/
lemma foldl_score_sub (g1 g2 : String → ℚ) :
    ∀ (L : List (String × ℚ)) (s1 s2 : ℚ),
      L.foldl (fun a p => a + p.2 * g2 p.1) s2 - L.foldl (fun a p => a + p.2 * g1 p.1) s1
        = (s2 - s1) + (L.map (fun p => p.2 * (g2 p.1 - g1 p.1))).sum := by
  intro L
  induction L with
  | nil => intro s1 s2; simp
  | cons p t ih =>
    intro s1 s2
    simp only [List.foldl_cons, List.map_cons, List.sum_cons]
    rw [ih (s1 + p.2 * g1 p.1) (s2 + p.2 * g2 p.1)]
    ring

/-- When the valuation difference vanishes away from one key, the per-entry
contributions collapse to the entries carrying that key. -/
lemma sum_single_key (f : String) (dv : String → ℚ) (h0 : ∀ k, k ≠ f → dv k = 0) :
    ∀ L : List (String × ℚ),
      (L.map (fun p => p.2 * dv p.1)).sum
        = ((L.filter (fun p => p.1 == f)).map Prod.snd).sum * dv f := by
  intro L
  induction L with
  | nil => simp
  | cons p t ih =>
    by_cases hp : p.1 = f
    · simp only [List.map_cons, List.sum_cons, List.filter_cons, hp, beq_self_eq_true,
        if_pos, ih]
      ring
    · have hz : dv p.1 = 0 := h0 p.1 hp
      have hb : (p.1 == f) = false := beq_eq_false_iff_ne.mpr hp
      simp only [List.map_cons, List.sum_cons, List.filter_cons, hb, hz, mul_zero,
        zero_add, Bool.false_eq_true, if_false, ih]

/-- A key absent from the table is filtered away entirely. -/
lemma filter_key_nil (f : String) :
    ∀ L : List (String × ℚ), f ∉ L.map Prod.fst →
      L.filter (fun p => p.1 == f) = [] := by
  intro L
  induction L with
  | nil => intro _; rfl
  | cons p t ih =>
    intro h
    have h1 : p.1 ≠ f := fun he => h (by simp [← he])
    have h2 : f ∉ t.map Prod.fst := fun hm => h (by simp [hm])
    simp [List.filter_cons, beq_eq_false_iff_ne.mpr h1, ih h2]

/-- Under distinct keys, filtering the table down to one present key leaves
exactly that entry. -/
lemma filter_key_single (f : String) (c : ℚ) :
    ∀ L : List (String × ℚ), (L.map Prod.fst).Nodup → (f, c) ∈ L →
      L.filter (fun p => p.1 == f) = [(f, c)] := by
  intro L
  induction L with
  | nil => intro _ hm; cases hm
  | cons p t ih =>
    intro hnd hm
    have hnd1 : p.1 ∉ t.map Prod.fst := by
      simp only [List.map_cons, List.nodup_cons] at hnd
      exact hnd.1
    have hnd2 : (t.map Prod.fst).Nodup := by
      simp only [List.map_cons, List.nodup_cons] at hnd
      exact hnd.2
    rcases List.mem_cons.mp hm with he | ht
    · have hf : p.1 = f := by rw [← he]
      have : t.filter (fun p => p.1 == f) = [] := by
        apply filter_key_nil
        rw [← hf]
        exact hnd1
      rw [← he]
      simp [List.filter_cons, this]
    · have hf : p.1 ≠ f := by
        intro he2
        exact hnd1 (by simpa [he2] using List.mem_map_of_mem Prod.fst ht)
      simp [List.filter_cons, beq_eq_false_iff_ne.mpr hf, ih hnd2 ht]

/-- Changing the feature dictionary only at one tabulated key changes the
linear score by that key's coefficient times the value difference. -/
lemma linearScore_sub (d1 d2 : FeatureDict) (f : String) (c : ℚ)
    (hmem : (f, c) ∈ COEFFICIENTS)
    (hoth : ∀ k, k ≠ f → dictGet d2 k = dictGet d1 k) :
    linearScore d2 - linearScore d1 = c * (dictGet d2 f - dictGet d1 f) := by
  have h := foldl_score_sub (dictGet d1) (dictGet d2) COEFFICIENTS INTERCEPT INTERCEPT
  have hs := sum_single_key f (fun k => dictGet d2 k - dictGet d1 k)
    (fun k hk => by simp only [hoth k hk, sub_self]) COEFFICIENTS
  simp only [] at hs
  rw [hs, filter_key_single f c COEFFICIENTS coeff_keys_nodup hmem] at h
  simpa [linearScore] using h

end LoanPredictor

namespace LoanPredictor

/-- On the non-overflow path, predict_loan_default returns the canonical
result built from the sigmoid of the linear score. -/
lemma predict_of_ok (d : FeatureDict)
    (h : ¬ ((EXP_OVERFLOW_BOUND : ℚ) : ℝ) < -((linearScore d : ℚ) : ℝ)) :
    predict_loan_default d = Except.ok
      { probability := probOf d
        predicted_default := decisionOf (probOf d)
        risk_level := riskLevelOf (probOf d)
        recommendation := recommendationOf (decisionOf (probOf d)) } := by
  simp only [predict_loan_default, pyExp, if_neg h, probOf]

/-- When the negated linear score exceeds the exp overflow bound, the scorer
propagates the overflow fault. -/
lemma predict_of_overflow (d : FeatureDict)
    (h : ((EXP_OVERFLOW_BOUND : ℚ) : ℝ) < -((linearScore d : ℚ) : ℝ)) :
    predict_loan_default d = Except.error MathError.overflow := by
  simp only [predict_loan_default, pyExp, if_pos h]

/-- Any successfully returned result is the canonical one. -/
lemma ok_result_eq (d : FeatureDict) (r : PredictionResult)
    (h : predict_loan_default d = Except.ok r) :
    r = { probability := probOf d
          predicted_default := decisionOf (probOf d)
          risk_level := riskLevelOf (probOf d)
          recommendation := recommendationOf (decisionOf (probOf d)) } := by
  by_cases hb : ((EXP_OVERFLOW_BOUND : ℚ) : ℝ) < -((linearScore d : ℚ) : ℝ)
  · rw [predict_of_overflow d hb] at h
    exact absurd h (by simp)
  · rw [predict_of_ok d hb] at h
    exact (Except.ok.inj h).symm

/-- The whole prediction is a function of the linear score. -/
lemma predict_eq_of_score_eq (d1 d2 : FeatureDict)
    (h : linearScore d1 = linearScore d2) :
    predict_loan_default d1 = predict_loan_default d2 := by
  simp only [predict_loan_default, h]

/-- The sigmoid of the linear score is monotone in the score. -/
lemma probOf_mono (d1 d2 : FeatureDict) (h : linearScore d1 ≤ linearScore d2) :
    probOf d1 ≤ probOf d2 := by
  unfold probOf
  have hc : ((linearScore d1 : ℚ) : ℝ) ≤ ((linearScore d2 : ℚ) : ℝ) := by exact_mod_cast h
  have he : Real.exp (-((linearScore d2 : ℚ) : ℝ)) ≤ Real.exp (-((linearScore d1 : ℚ) : ℝ)) :=
    Real.exp_le_exp.mpr (by linarith)
  have h2 : (0 : ℝ) < 1 + Real.exp (-((linearScore d2 : ℚ) : ℝ)) := by positivity
  exact one_div_le_one_div_of_le h2 (by linarith)

end LoanPredictor

/-- Lower bound for the exponential: the n-th power of 1 + x/n. -/
lemma exp_lower_bound (x : ℝ) (n : ℕ) (hn : n ≠ 0) (h : 0 ≤ 1 + x / n) :
    (1 + x / n) ^ n ≤ Real.exp x := by
  have hn0 : ((n : ℝ)) ≠ 0 := Nat.cast_ne_zero.mpr hn
  have h1 : 1 + x / n ≤ Real.exp (x / n) := by linarith [Real.add_one_le_exp (x / n)]
  have h2 : (1 + x / n) ^ n ≤ Real.exp (x / n) ^ n := pow_le_pow_left h h1 n
  rwa [← Real.exp_nat_mul, mul_comm, div_mul_cancel₀ x hn0] at h2

/-- Upper bound for the exponential: the n-th power of (1 - x/n) inverse. -/
lemma exp_upper_bound (x : ℝ) (n : ℕ) (hn : n ≠ 0) (h : x / n < 1) :
    Real.exp x ≤ ((1 - x / n)⁻¹) ^ n := by
  have hn0 : ((n : ℝ)) ≠ 0 := Nat.cast_ne_zero.mpr hn
  have h0 : (0 : ℝ) < 1 - x / n := by linarith
  have h1 : 1 - x / n ≤ Real.exp (-(x / n)) := by linarith [Real.add_one_le_exp (-(x / n))]
  have h2 : Real.exp (x / n) ≤ (1 - x / n)⁻¹ := by
    rw [show Real.exp (x / n) = (Real.exp (-(x / n)))⁻¹ by rw [Real.exp_neg, inv_inv]]
    exact inv_le_inv_of_le h0 h1
  have h3 : Real.exp (x / n) ^ n ≤ ((1 - x / n)⁻¹) ^ n :=
    pow_le_pow_left (Real.exp_pos _).le h2 n
  rwa [← Real.exp_nat_mul, mul_comm, div_mul_cancel₀ x hn0] at h3

/-- Rational bracket for exp(0.3273), tight enough for the all-zero scenario. -/
lemma exp_3273_bounds : (1.369 : ℝ) ≤ Real.exp 0.3273 ∧ Real.exp 0.3273 ≤ 1.408 := by
  constructor
  · calc (1.369 : ℝ) ≤ (1 + 0.3273 / 4) ^ 4 := by norm_num
    _ ≤ Real.exp 0.3273 := exp_lower_bound 0.3273 4 (by norm_num) (by norm_num)
  · calc Real.exp 0.3273 ≤ ((1 - (0.3273 : ℝ) / 4)⁻¹) ^ 4 :=
        exp_upper_bound 0.3273 4 (by norm_num) (by norm_num)
    _ ≤ 1.408 := by norm_num

/-- Rational bracket for exp(-0.111), for the contact-cellular scenario. -/
lemma exp_neg111_bounds :
    (0.889 : ℝ) ≤ Real.exp (-0.111) ∧ Real.exp (-0.111) ≤ 0.9001 := by
  constructor
  · linarith [Real.add_one_le_exp (-0.111 : ℝ)]
  · refine le_trans (exp_upper_bound (-0.111) 1 (by norm_num) (by norm_num)) ?_
    push_cast
    norm_num

/-- Rational bracket for exp(-1.9081), for the demo sample customer. -/
lemma exp_neg19081_bounds :
    (0.144 : ℝ) ≤ Real.exp (-1.9081) ∧ Real.exp (-1.9081) ≤ 0.155 := by
  constructor
  · calc (0.144 : ℝ) ≤ (1 + (-1.9081 : ℝ) / 64) ^ 64 := by norm_num
    _ ≤ Real.exp (-1.9081) := exp_lower_bound (-1.9081) 64 (by norm_num) (by norm_num)
  · calc Real.exp (-1.9081) ≤ ((1 - (-1.9081 : ℝ) / 64)⁻¹) ^ 64 :=
        exp_upper_bound (-1.9081) 64 (by norm_num) (by norm_num)
    _ ≤ 0.155 := by norm_num

/-- C1: the claim that extreme accumulator magnitudes never raise an
overflow fault fails on the code.  At the input with pdays = 3000 the
accumulator is -837.3273, its magnitude exceeds ~700, and
predict_loan_default propagates math.exp's OverflowError instead of
saturating the sigmoid. -/
theorem overflow_fault_on_extreme_accumulator :
    LoanPredictor.linearScore [(("pdays"), 3000)] = -837.3273 ∧
    LoanPredictor.predict_loan_default [(("pdays"), 3000)] =
      Except.error MathError.overflow := by
  have hs : LoanPredictor.linearScore [(("pdays"), 3000)] = -837.3273 := by
    norm_num +decide [LoanPredictor.linearScore, LoanPredictor.COEFFICIENTS,
      LoanPredictor.INTERCEPT, dictGet]
  refine ⟨hs, ?_⟩
  apply LoanPredictor.predict_of_overflow
  rw [hs]
  push_cast
  norm_num [EXP_OVERFLOW_BOUND]

/-- C2: every result predict_loan_default actually returns satisfies the
declared output contract: probability strictly in (0,1), decision 0 or 1,
risk level one of the four ladder labels, recommendation APPROVE or
REVIEW/REJECT. -/
theorem output_contract (d : FeatureDict) (r : PredictionResult)
    (h : LoanPredictor.predict_loan_default d = Except.ok r) : ValidResult r := by
  rw [LoanPredictor.ok_result_eq d r h]
  have hE : (0 : ℝ) < Real.exp (-((LoanPredictor.linearScore d : ℚ) : ℝ)) := Real.exp_pos _
  simp only [ValidResult]
  refine ⟨?_, ?_, ?_, ?_, ?_⟩
  · show (0 : ℝ) < LoanPredictor.probOf d
    unfold LoanPredictor.probOf
    positivity
  · show LoanPredictor.probOf d < 1
    unfold LoanPredictor.probOf
    rw [div_lt_one (by positivity)]
    linarith
  · show LoanPredictor.decisionOf (LoanPredictor.probOf d) = 0 ∨
      LoanPredictor.decisionOf (LoanPredictor.probOf d) = 1
    unfold LoanPredictor.decisionOf
    split
    · right; rfl
    · left; rfl
  · show LoanPredictor.riskLevelOf (LoanPredictor.probOf d) = "Low Risk" ∨ _
    unfold LoanPredictor.riskLevelOf
    split_ifs <;> simp
  · show LoanPredictor.recommendationOf _ = "APPROVE" ∨
      LoanPredictor.recommendationOf _ = "REVIEW/REJECT"
    unfold LoanPredictor.recommendationOf
    split
    · right; rfl
    · left; rfl

/-- C2 witness: the empty feature dictionary is scored without fault and its
result meets the contract. -/
theorem output_contract_witness :
    ValidResult
      { probability := LoanPredictor.probOf []
        predicted_default := LoanPredictor.decisionOf (LoanPredictor.probOf [])
        risk_level := LoanPredictor.riskLevelOf (LoanPredictor.probOf [])
        recommendation :=
          LoanPredictor.recommendationOf (LoanPredictor.decisionOf (LoanPredictor.probOf [])) } :=
  output_contract [] _ (LoanPredictor.predict_of_ok []
    (by
      have hs : LoanPredictor.linearScore [] = -0.3273 := by
        norm_num [LoanPredictor.linearScore, LoanPredictor.COEFFICIENTS,
          LoanPredictor.INTERCEPT, dictGet]
      rw [hs]
      push_cast
      norm_num [EXP_OVERFLOW_BOUND]))

/-- C3: the binary decision compares strictly against the 0.6 threshold:
probability exactly 0.6 gives decision 0 and recommendation APPROVE, and any
probability strictly above 0.6 gives decision 1 and recommendation
REVIEW/REJECT. -/
theorem decision_threshold_strict :
    (LoanPredictor.decisionOf 0.6 = 0 ∧
      LoanPredictor.recommendationOf (LoanPredictor.decisionOf 0.6) = "APPROVE") ∧
    ∀ p : ℝ, 0.6 < p →
      LoanPredictor.decisionOf p = 1 ∧
      LoanPredictor.recommendationOf (LoanPredictor.decisionOf p) = "REVIEW/REJECT" := by
  constructor
  · have h : LoanPredictor.decisionOf 0.6 = 0 := by
      unfold LoanPredictor.decisionOf LoanPredictor.OPTIMAL_THRESHOLD
      norm_num
    exact ⟨h, by rw [h]; simp [LoanPredictor.recommendationOf]⟩
  · intro p hp
    have h : LoanPredictor.decisionOf p = 1 := by
      unfold LoanPredictor.decisionOf LoanPredictor.OPTIMAL_THRESHOLD
      rw [if_pos]
      exact hp
    exact ⟨h, by rw [h]; simp [LoanPredictor.recommendationOf]⟩

/-- C3 witness: the strict branch applied at probability 0.61. -/
theorem decision_threshold_strict_witness :
    LoanPredictor.decisionOf 0.61 = 1 ∧
    LoanPredictor.recommendationOf (LoanPredictor.decisionOf 0.61) = "REVIEW/REJECT" :=
  decision_threshold_strict.2 0.61 (by norm_num)

/-- C4: the risk ladder is half-open with first-match-wins bands: below 0.2
Low, [0.2, 0.5) Medium, [0.5, 0.8) High, at or above 0.8 Very High, and each
boundary value lands in the upper band. -/
theorem risk_tier_ladder :
    (∀ p : ℝ,
      (p < 0.2 → LoanPredictor.riskLevelOf p = "Low Risk") ∧
      (0.2 ≤ p ∧ p < 0.5 → LoanPredictor.riskLevelOf p = "Medium Risk") ∧
      (0.5 ≤ p ∧ p < 0.8 → LoanPredictor.riskLevelOf p = "High Risk") ∧
      (0.8 ≤ p → LoanPredictor.riskLevelOf p = "Very High Risk")) ∧
    LoanPredictor.riskLevelOf 0.2 = "Medium Risk" ∧
    LoanPredictor.riskLevelOf 0.5 = "High Risk" ∧
    LoanPredictor.riskLevelOf 0.8 = "Very High Risk" := by
  have hl : ∀ p : ℝ,
      (p < 0.2 → LoanPredictor.riskLevelOf p = "Low Risk") ∧
      (0.2 ≤ p ∧ p < 0.5 → LoanPredictor.riskLevelOf p = "Medium Risk") ∧
      (0.5 ≤ p ∧ p < 0.8 → LoanPredictor.riskLevelOf p = "High Risk") ∧
      (0.8 ≤ p → LoanPredictor.riskLevelOf p = "Very High Risk") := by
    intro p
    refine ⟨?_, ?_, ?_, ?_⟩
    · intro h
      unfold LoanPredictor.riskLevelOf
      rw [if_pos h]
    · rintro ⟨h1, h2⟩
      unfold LoanPredictor.riskLevelOf
      rw [if_neg (not_lt.mpr h1), if_pos h2]
    · rintro ⟨h1, h2⟩
      unfold LoanPredictor.riskLevelOf
      rw [if_neg (not_lt.mpr (by linarith)), if_neg (not_lt.mpr h1), if_pos h2]
    · intro h
      unfold LoanPredictor.riskLevelOf
      rw [if_neg (not_lt.mpr (by linarith)), if_neg (not_lt.mpr (by linarith)),
        if_neg (not_lt.mpr h)]
  refine ⟨hl, ?_, ?_, ?_⟩
  · exact (hl 0.2).2.1 ⟨le_refl _, by norm_num⟩
  · exact (hl 0.5).2.2.1 ⟨le_refl _, by norm_num⟩
  · exact (hl 0.8).2.2.2 (le_refl _)

/-- C4 witness: the ladder applied at probability 0.35 yields Medium Risk. -/
theorem risk_tier_ladder_witness :
    LoanPredictor.riskLevelOf 0.35 = "Medium Risk" :=
  (risk_tier_ladder.1 0.35).2.1 ⟨by norm_num, by norm_num⟩

/-- A key bound by no entry of the dictionary looks up to the default 0. -/
lemma dictGet_absent (d : FeatureDict) (k : String) (h : ∀ v : ℚ, (k, v) ∉ d) :
    dictGet d k = 0 := by
  induction d with
  | nil => rfl
  | cons p rest ih =>
    obtain ⟨k1, v1⟩ := p
    by_cases he : k = k1
    · subst he
      exact absurd (List.mem_cons_self _ _) (h v1)
    · simp only [dictGet, if_neg he]
      exact ih (fun v hv => h v (List.mem_cons_of_mem _ hv))

/-- C5: moving a single tabulated feature upward, all other features held
fixed, never decreases the returned probability when that feature's
coefficient is positive, and never increases it when the coefficient is
negative. -/
theorem single_feature_monotonicity (d1 d2 : FeatureDict) (f : String) (c : ℚ)
    (hmem : (f, c) ∈ LoanPredictor.COEFFICIENTS)
    (hoth : ∀ k, k ≠ f → dictGet d2 k = dictGet d1 k)
    (hf : dictGet d1 f ≤ dictGet d2 f)
    (r1 r2 : PredictionResult)
    (h1 : LoanPredictor.predict_loan_default d1 = Except.ok r1)
    (h2 : LoanPredictor.predict_loan_default d2 = Except.ok r2) :
    (0 < c → r1.probability ≤ r2.probability) ∧
    (c < 0 → r2.probability ≤ r1.probability) := by
  have hsub := LoanPredictor.linearScore_sub d1 d2 f c hmem hoth
  rw [LoanPredictor.ok_result_eq d1 r1 h1, LoanPredictor.ok_result_eq d2 r2 h2]
  constructor
  · intro hc
    show LoanPredictor.probOf d1 ≤ LoanPredictor.probOf d2
    apply LoanPredictor.probOf_mono
    nlinarith [mul_nonneg hc.le (sub_nonneg.mpr hf)]
  · intro hc
    show LoanPredictor.probOf d2 ≤ LoanPredictor.probOf d1
    apply LoanPredictor.probOf_mono
    nlinarith [mul_nonneg (neg_nonneg.mpr hc.le) (sub_nonneg.mpr hf)]

/-- C5 witness: raising age from absent (0) to 1 on the empty dictionary,
with the positive age coefficient, does not decrease the probability. -/
theorem single_feature_monotonicity_witness :
    LoanPredictor.probOf [] ≤ LoanPredictor.probOf [(("age"), 1)] := by
  have hb1 : ¬ ((EXP_OVERFLOW_BOUND : ℚ) : ℝ) < -((LoanPredictor.linearScore [] : ℚ) : ℝ) := by
    have hs : LoanPredictor.linearScore [] = -0.3273 := by
      norm_num [LoanPredictor.linearScore, LoanPredictor.COEFFICIENTS,
        LoanPredictor.INTERCEPT, dictGet]
    rw [hs]
    push_cast
    norm_num [EXP_OVERFLOW_BOUND]
  have hb2 : ¬ ((EXP_OVERFLOW_BOUND : ℚ) : ℝ) <
      -((LoanPredictor.linearScore [(("age"), 1)] : ℚ) : ℝ) := by
    have hs : LoanPredictor.linearScore [(("age"), 1)] = -0.288 := by
      norm_num +decide [LoanPredictor.linearScore, LoanPredictor.COEFFICIENTS,
        LoanPredictor.INTERCEPT, dictGet]
    rw [hs]
    push_cast
    norm_num [EXP_OVERFLOW_BOUND]
  exact (single_feature_monotonicity [] [(("age"), 1)] ("age") 0.0393
    (by norm_num [LoanPredictor.COEFFICIENTS])
    (fun k hk => by simp [dictGet, hk])
    (by simp [dictGet])
    _ _ (LoanPredictor.predict_of_ok [] hb1)
    (LoanPredictor.predict_of_ok [(("age"), 1)] hb2)).1 (by norm_num)

/-- C6: a key outside the 14-entry coefficient table is ignored — prepending
it leaves the prediction unchanged — and a recognized key absent from the
dictionary acts exactly as if it were present with value 0. -/
theorem unknown_and_missing_keys :
    (∀ (d : FeatureDict) (k : String) (v : ℚ),
      k ∉ LoanPredictor.COEFFICIENTS.map Prod.fst →
      LoanPredictor.predict_loan_default ((k, v) :: d) =
        LoanPredictor.predict_loan_default d) ∧
    (∀ (d : FeatureDict) (k : String),
      (∀ v : ℚ, (k, v) ∉ d) →
      LoanPredictor.predict_loan_default ((k, (0 : ℚ)) :: d) =
        LoanPredictor.predict_loan_default d) := by
  constructor
  · intro d k v hk
    apply LoanPredictor.predict_eq_of_score_eq
    unfold LoanPredictor.linearScore
    apply LoanPredictor.foldl_score_congr
    intro p hp
    have hne : p.1 ≠ k := fun he => hk (he ▸ List.mem_map_of_mem Prod.fst hp)
    simp [dictGet, hne]
  · intro d k habs
    apply LoanPredictor.predict_eq_of_score_eq
    unfold LoanPredictor.linearScore
    apply LoanPredictor.foldl_score_congr
    intro p _
    by_cases he : p.1 = k
    · rw [he]
      simp [dictGet, dictGet_absent d k habs]
    · simp [dictGet, he]

/-- C6 witness: the unrecognized key foo with value 1 is ignored. -/
theorem unknown_and_missing_keys_witness :
    LoanPredictor.predict_loan_default [(("foo"), 1), (("age"), 45)] =
      LoanPredictor.predict_loan_default [(("age"), 45)] :=
  unknown_and_missing_keys.1 [(("age"), 45)] ("foo") 1 (by decide)

/-- C7: with every recognized feature valued 0 (in particular the empty
dictionary) the scorer returns probability sigmoid(-0.3273) — about 0.4189 —
with risk level Medium Risk, decision 0 and recommendation APPROVE. -/
theorem all_zero_features_prediction (d : FeatureDict)
    (h : ∀ p ∈ LoanPredictor.COEFFICIENTS, dictGet d p.1 = 0) :
    LoanPredictor.predict_loan_default d = Except.ok
      { probability := 1 / (1 + Real.exp 0.3273)
        predicted_default := 0
        risk_level := "Medium Risk"
        recommendation := "APPROVE" } ∧
    |1 / (1 + Real.exp (0.3273 : ℝ)) - 0.4189| < 0.005 := by
  have hs : LoanPredictor.linearScore d = -0.3273 := by
    unfold LoanPredictor.linearScore
    rw [LoanPredictor.foldl_score_zero (dictGet d) LoanPredictor.COEFFICIENTS
      LoanPredictor.INTERCEPT h]
    norm_num [LoanPredictor.INTERCEPT]
  have hprob : LoanPredictor.probOf d = 1 / (1 + Real.exp (0.3273 : ℝ)) := by
    unfold LoanPredictor.probOf
    rw [hs]
    norm_num
  have hE := exp_3273_bounds
  have hEpos : (0 : ℝ) < 1 + Real.exp (0.3273 : ℝ) := by positivity
  have hp1 : 1 / (1 + Real.exp (0.3273 : ℝ)) < 0.5 := by
    rw [div_lt_iff₀ hEpos]
    nlinarith [hE.1]
  have hp2 : (0.2 : ℝ) ≤ 1 / (1 + Real.exp (0.3273 : ℝ)) := by
    rw [le_div_iff₀ hEpos]
    nlinarith [hE.2]
  have hp3 : 1 / (1 + Real.exp (0.3273 : ℝ)) ≤ 0.6 := by
    rw [div_le_iff₀ hEpos]
    nlinarith [hE.1]
  constructor
  · rw [LoanPredictor.predict_of_ok d
      (by rw [hs]; push_cast; norm_num [EXP_OVERFLOW_BOUND])]
    rw [hprob]
    have hd : LoanPredictor.decisionOf (1 / (1 + Real.exp (0.3273 : ℝ))) = 0 := by
      unfold LoanPredictor.decisionOf LoanPredictor.OPTIMAL_THRESHOLD
      rw [if_neg (not_lt.mpr hp3)]
    have hr : LoanPredictor.riskLevelOf (1 / (1 + Real.exp (0.3273 : ℝ))) = "Medium Risk" := by
      unfold LoanPredictor.riskLevelOf
      rw [if_neg (not_lt.mpr (by linarith)), if_pos hp1]
    rw [hd, hr]
    simp [LoanPredictor.recommendationOf]
  · rw [abs_lt]
    constructor
    · have hgt : (0.4139 : ℝ) < 1 / (1 + Real.exp (0.3273 : ℝ)) := by
        rw [lt_div_iff₀ hEpos]
        nlinarith [hE.2]
      linarith
    · have hlt : 1 / (1 + Real.exp (0.3273 : ℝ)) < 0.4239 := by
        rw [div_lt_iff₀ hEpos]
        nlinarith [hE.1]
      linarith

/-- C7 witness: the empty dictionary instantiates the all-zero scenario. -/
theorem all_zero_features_prediction_witness :
    LoanPredictor.predict_loan_default [] = Except.ok
      { probability := 1 / (1 + Real.exp 0.3273)
        predicted_default := 0
        risk_level := "Medium Risk"
        recommendation := "APPROVE" } ∧
    |1 / (1 + Real.exp (0.3273 : ℝ)) - 0.4189| < 0.005 :=
  all_zero_features_prediction [] (fun _ _ => rfl)

/-- C8: the dictionary carrying only contact_cellular = 1 scores exactly
0.111, so the probability is sigmoid(0.1110) — about 0.5277, inside
(0.5, 0.6] — making the risk level High Risk while the decision stays 0 and
the recommendation APPROVE. -/
theorem contact_cellular_prediction :
    LoanPredictor.linearScore [(("contact_cellular"), 1)] = 0.111 ∧
    LoanPredictor.predict_loan_default [(("contact_cellular"), 1)] = Except.ok
      { probability := 1 / (1 + Real.exp (-0.111))
        predicted_default := 0
        risk_level := "High Risk"
        recommendation := "APPROVE" } ∧
    0.5 < 1 / (1 + Real.exp (-(0.111 : ℝ))) ∧
    1 / (1 + Real.exp (-(0.111 : ℝ))) < 0.6 ∧
    |1 / (1 + Real.exp (-(0.111 : ℝ))) - 0.5277| < 0.005 := by
  have hs : LoanPredictor.linearScore [(("contact_cellular"), 1)] = 0.111 := by
    norm_num +decide [LoanPredictor.linearScore, LoanPredictor.COEFFICIENTS,
      LoanPredictor.INTERCEPT, dictGet]
  have hprob : LoanPredictor.probOf [(("contact_cellular"), 1)]
      = 1 / (1 + Real.exp (-(0.111 : ℝ))) := by
    unfold LoanPredictor.probOf
    rw [hs]
    norm_num
  have hE := exp_neg111_bounds
  have hEpos : (0 : ℝ) < 1 + Real.exp (-(0.111 : ℝ)) := by positivity
  have hp1 : (0.5 : ℝ) < 1 / (1 + Real.exp (-(0.111 : ℝ))) := by
    rw [lt_div_iff₀ hEpos]
    nlinarith [hE.2]
  have hp2 : 1 / (1 + Real.exp (-(0.111 : ℝ))) ≤ 0.6 := by
    rw [div_le_iff₀ hEpos]
    nlinarith [hE.1]
  have hp3 : 1 / (1 + Real.exp (-(0.111 : ℝ))) < 0.8 := by
    rw [div_lt_iff₀ hEpos]
    nlinarith [hE.1]
  refine ⟨hs, ?_, hp1, lt_of_le_of_ne hp2 ?_, ?_⟩
  · rw [LoanPredictor.predict_of_ok [(("contact_cellular"), 1)]
      (by rw [hs]; push_cast; norm_num [EXP_OVERFLOW_BOUND])]
    rw [hprob]
    have hd : LoanPredictor.decisionOf (1 / (1 + Real.exp (-(0.111 : ℝ)))) = 0 := by
      unfold LoanPredictor.decisionOf LoanPredictor.OPTIMAL_THRESHOLD
      rw [if_neg (not_lt.mpr hp2)]
    have hr : LoanPredictor.riskLevelOf (1 / (1 + Real.exp (-(0.111 : ℝ)))) = "High Risk" := by
      unfold LoanPredictor.riskLevelOf
      rw [if_neg (not_lt.mpr (by linarith)), if_neg (not_lt.mpr (by linarith)), if_pos hp3]
    rw [hd, hr]
    simp [LoanPredictor.recommendationOf]
  · intro heq
    rw [div_eq_iff (ne_of_gt hEpos)] at heq
    nlinarith [hE.2]
  · rw [abs_lt]
    constructor
    · have hgt : (0.5227 : ℝ) < 1 / (1 + Real.exp (-(0.111 : ℝ))) := by
        rw [lt_div_iff₀ hEpos]
        nlinarith [hE.2]
      linarith
    · have hlt : 1 / (1 + Real.exp (-(0.111 : ℝ))) < 0.5327 := by
        rw [div_lt_iff₀ hEpos]
        nlinarith [hE.1]
      linarith

/-- C9 counterexample: the demo sample customer's linear score is exactly
1.9081; the value 1.8926 claimed by the spec is off by 0.0155, so the score
is not approximately 1.8926 even at two-decimal tolerance. -/
theorem demo_sample_score_counterexample :
    LoanPredictor.linearScore johnData = 1.9081 ∧
    ¬ |LoanPredictor.linearScore johnData - 1.8926| < (0.005 : ℚ) := by
  have hs : LoanPredictor.linearScore johnData = 1.9081 := by
    norm_num +decide [LoanPredictor.linearScore, LoanPredictor.COEFFICIENTS,
      LoanPredictor.INTERCEPT, johnData, dictGet]
  refine ⟨hs, ?_⟩
  rw [hs, show (1.9081 : ℚ) - 1.8926 = 0.0155 by norm_num,
    abs_of_pos (by norm_num : (0 : ℚ) < 0.0155)]
  norm_num

/-- C9 (amended): the demo sample customer scores exactly 1.9081, giving
probability sigmoid(1.9081) — about 0.8708 — risk level Very High Risk,
decision 1 and recommendation REVIEW/REJECT. -/
theorem demo_sample_prediction :
    LoanPredictor.linearScore johnData = 1.9081 ∧
    LoanPredictor.predict_loan_default johnData = Except.ok
      { probability := 1 / (1 + Real.exp (-1.9081))
        predicted_default := 1
        risk_level := "Very High Risk"
        recommendation := "REVIEW/REJECT" } ∧
    |1 / (1 + Real.exp (-(1.9081 : ℝ))) - 0.8708| < 0.005 := by
  have hs : LoanPredictor.linearScore johnData = 1.9081 := by
    norm_num +decide [LoanPredictor.linearScore, LoanPredictor.COEFFICIENTS,
      LoanPredictor.INTERCEPT, johnData, dictGet]
  have hprob : LoanPredictor.probOf johnData = 1 / (1 + Real.exp (-(1.9081 : ℝ))) := by
    unfold LoanPredictor.probOf
    rw [hs]
    norm_num
  have hE := exp_neg19081_bounds
  have hEpos : (0 : ℝ) < 1 + Real.exp (-(1.9081 : ℝ)) := by positivity
  have hp1 : (0.6 : ℝ) < 1 / (1 + Real.exp (-(1.9081 : ℝ))) := by
    rw [lt_div_iff₀ hEpos]
    nlinarith [hE.2]
  have hp2 : (0.8 : ℝ) ≤ 1 / (1 + Real.exp (-(1.9081 : ℝ))) := by
    rw [le_div_iff₀ hEpos]
    nlinarith [hE.2]
  refine ⟨hs, ?_, ?_⟩
  · rw [LoanPredictor.predict_of_ok johnData
      (by rw [hs]; push_cast; norm_num [EXP_OVERFLOW_BOUND])]
    rw [hprob]
    have hd : LoanPredictor.decisionOf (1 / (1 + Real.exp (-(1.9081 : ℝ)))) = 1 := by
      unfold LoanPredictor.decisionOf LoanPredictor.OPTIMAL_THRESHOLD
      rw [if_pos hp1]
    have hr : LoanPredictor.riskLevelOf (1 / (1 + Real.exp (-(1.9081 : ℝ))))
        = "Very High Risk" := by
      unfold LoanPredictor.riskLevelOf
      rw [if_neg (not_lt.mpr (by linarith)), if_neg (not_lt.mpr (by linarith)),
        if_neg (not_lt.mpr hp2)]
    rw [hd, hr]
    simp [LoanPredictor.recommendationOf]
  · rw [abs_lt]
    constructor
    · have hgt : (0.8658 : ℝ) < 1 / (1 + Real.exp (-(1.9081 : ℝ))) := by
        rw [lt_div_iff₀ hEpos]
        nlinarith [hE.2]
      linarith
    · have hlt : 1 / (1 + Real.exp (-(1.9081 : ℝ))) < 0.8758 := by
        rw [div_lt_iff₀ hEpos]
        nlinarith [hE.1]
      linarith

/-- C10: on every feature dictionary the two scorers agree: identical linear
score, and the streamlit result carries exactly the backend probability and
risk label, the recommendation respelled REVIEW / REJECT, and the ladder
color. -/
theorem streamlit_matches_backend (d : FeatureDict) :
    StreamlitApp.linearScore d = LoanPredictor.linearScore d ∧
    StreamlitApp.predict_loan_default d =
      (LoanPredictor.predict_loan_default d).map (fun r =>
        (r.probability, r.risk_level,
          (if r.predicted_default = 1 then "REVIEW / REJECT" else "APPROVE"),
          (if r.probability < 0.2 then "green"
           else if r.probability < 0.5 then "gold"
           else if r.probability < 0.8 then "orange" else "red"))) := by
  refine ⟨rfl, ?_⟩
  simp only [StreamlitApp.predict_loan_default, LoanPredictor.predict_loan_default]
  rw [show StreamlitApp.linearScore d = LoanPredictor.linearScore d from rfl]
  cases hpe : pyExp (-((LoanPredictor.linearScore d : ℚ) : ℝ)) with
  | error e => simp [hpe, Except.map]
  | ok ex =>
    have hth : StreamlitApp.OPTIMAL_THRESHOLD = LoanPredictor.OPTIMAL_THRESHOLD := rfl
    simp only [hpe, Except.map, hth, LoanPredictor.decisionOf, LoanPredictor.riskLevelOf,
      LoanPredictor.recommendationOf, Except.ok.injEq, Prod.mk.injEq]
    refine ⟨trivial, ?_, trivial, ?_⟩ <;> split_ifs <;> rfl
